import Mathlib

/-!
Shallow embedding of the Domoticz Hue-bridge emulator
(src/domoticz-hue-emulator.py): the brightness and colour conversions,
the device-registry builder, the Domoticz status query, the light-control
dispatch of the HTTP handler, and the SSDP discovery match, together with
theorems checking the specification's claims about them.

Python machine floats are modelled by exact rationals.  At every site a
claim depends on, the float computation agrees with the exact rational
one; each definition's comment records the argument where it is not
immediate.
-/

set_option maxRecDepth 8000

namespace DomoticzHue

/-! ### Brightness conversions (DomoticzController) -/

/-- From set_brightness, line 263: level = int(brightness * 100 / 254).
For integers the float product and quotient stay within 1e-13 of the
exact value and never cross an integer, so int() truncation equals the
exact floor and Nat division is a faithful model. -/
def set_brightness_level (brightness : ℕ) : ℕ :=
  brightness * 100 / 254

/-- From _control_light, line 582: level = int(data["bri"] / 2.54).
The double nearest 2.54 lies just above 127/50; the computed quotient
rounds back to the exact integer at every multiple of 127 and is
otherwise far from the floor boundary, so int(bri / 2.54) equals
floor(bri * 100 / 254) for every integer bri. -/
def control_dimmer_level (bri : ℕ) : ℕ :=
  bri * 100 / 254

/-- From get_device_status, line 313: bri = int(level * 2.54), the
percent-to-Hue direction.  The double nearest 2.54 lies just above
127/50; the product rounds back to the exact integer at every multiple
of 50 and is otherwise far from the floor boundary, so int(level * 2.54)
equals floor(level * 254 / 100) for every integer level. -/
def get_device_status_bri (level : ℕ) : ℕ :=
  level * 254 / 100

/-- Follows the spec claim's words, not the code: Python round (half to
even) of the exact rational num / den, as in the claimed formulas
round(bri * 100 / 254) and round(pct * 254 / 100). -/
def spec_round_half_even (num den : ℕ) : ℕ :=
  let q := num / den
  let r := num % den
  if 2 * r < den then q
  else if den < 2 * r then q + 1
  else if q % 2 = 0 then q else q + 1

/-! ### White colour temperature (DomoticzController.set_white_color) -/

/-- From set_white_color, lines 230-236: normalized =
(color_temp - 153) / (500 - 153), clamped to [0, 1]; then
cw = int(255 * (1 - normalized)) and ww = int(255 * normalized).  Both
products are nonnegative, so Python int() truncation is the floor. -/
def set_white_color_mix (color_temp : ℤ) : ℤ × ℤ :=
  let normalized : ℚ := ((color_temp : ℚ) - 153) / (500 - 153)
  let clamped : ℚ := max 0 (min 1 normalized)
  (⌊(255 : ℚ) * (1 - clamped)⌋, ⌊(255 : ℚ) * clamped⌋)

/-- The outbound setcolbrightnessvalue request built by set_white_color. -/
structure WhiteColorCmd where
  idx : ℕ
  cw : ℤ
  ww : ℤ
  brightness : ℕ
deriving DecidableEq

/-- From set_white_color, lines 239-249.  bri_level =
int(brightness * 100 / 254) if brightness else 100: Python truthiness
sends both None and 0 to the 100 default. -/
def set_white_color_cmd (idx : ℕ) (color_temp : ℤ) (brightness : Option ℕ) :
    WhiteColorCmd :=
  let mix := set_white_color_mix color_temp
  let bri_level : ℕ :=
    match brightness with
    | some b => if b = 0 then 100 else b * 100 / 254
    | none => 100
  ⟨idx, mix.1, mix.2, bri_level⟩

/-! ### Status query (DomoticzController.get_device_status) -/

/-- From the static method _rgb_to_hsv, lines 332-352; float arithmetic
modelled by exact rationals.  Python (h / 6.0) % 1.0 is h / 6 minus its
floor. -/
def rgb_to_hsv (r g b : ℕ) : ℚ × ℚ × ℚ :=
  let r' : ℚ := r / 255
  let g' : ℚ := g / 255
  let b' : ℚ := b / 255
  let max_c := max r' (max g' b')
  let min_c := min r' (min g' b')
  let v := max_c
  if max_c = min_c then (0, 0, v)
  else
    let s := (max_c - min_c) / max_c
    let rc := (max_c - r') / (max_c - min_c)
    let gc := (max_c - g') / (max_c - min_c)
    let bc := (max_c - b') / (max_c - min_c)
    let h0 : ℚ :=
      if r' = max_c then bc - gc
      else if g' = max_c then 2 + rc - bc
      else 4 + gc - rc
    (h0 / 6 - (⌊h0 / 6⌋ : ℚ), s, v)

/-- The device status dict get_device_status returns. -/
structure Status where
  «on» : Bool
  bri : ℕ
  hue : ℕ
  sat : ℕ
deriving DecidableEq

/-- The all-off fallback returned at line 330. -/
def default_status : Status := ⟨false, 0, 0, 0⟩

/-- The hub's "Color" field as lines 317-325 decode it: either r, g, b
components (tolerating the JSON-encoded-string and structured forms), or
a value whose decoding raises (JSONDecodeError / TypeError). -/
inductive ColorField
  | rgb (r g b : ℕ)
  | undecodable
deriving DecidableEq

/-- One entry of the hub response's "result" array; an absent JSON key
is none. -/
structure DomoEntry where
  idx : Option ℕ
  status : Option String
  level : Option ℕ
  color : Option ColorField
deriving DecidableEq

/-- The parsed JSON body of a getdevices / getscenes response. -/
structure DomoBody where
  result : Option (List DomoEntry)
deriving DecidableEq

/-- Outcome of session.get followed by response.json(): exn models a
raised transport error (timeout, connection failure); otherwise the
response carries its HTTP status code and, when response.json() parses,
the body (none models an unparseable body, which raises). -/
inductive HubResult
  | exn
  | resp (status_code : ℕ) (body : Option DomoBody)
deriving DecidableEq

/-- From get_device_status, lines 279-330.  Every raising path (transport
error, unparseable body) lands in the final all-off default, as does a
missing or empty "result" and a scene idx with no match.  The HTTP
status code of the response is never inspected. -/
def get_device_status (idx : ℕ) (is_scene : Bool) (r : HubResult) : Status :=
  match r with
  | .exn => default_status
  | .resp _ none => default_status
  | .resp _ (some data) =>
    if is_scene then
      match (data.result.getD []).find? (fun scene => scene.idx == some idx) with
      | some scene => ⟨scene.status == some "On", 254, 0, 0⟩
      | none => default_status
    else
      match data.result with
      | some (device :: _) =>
        let is_on : Bool := device.status.getD "Off" != "Off"
        let level := device.level.getD 0
        let level := if level = 0 ∧ is_on then 100 else level
        let base : Status := ⟨is_on, get_device_status_bri level, 0, 0⟩
        match device.color with
        | some (.rgb cr cg cb) =>
          let hsv := rgb_to_hsv cr cg cb
          { base with hue := (⌊hsv.1 * 65535⌋).toNat, sat := (⌊hsv.2.1 * 254⌋).toNat }
        | _ => base
      | _ => default_status

/-! ### Device registry (build_devices_dict) -/

/-- A device entry of the configuration file. -/
structure DeviceEntry where
  name : String
  idx : ℕ
  type : Option String
deriving DecidableEq

/-- A scene entry of the configuration file. -/
structure SceneEntry where
  name : String
  idx : ℕ
  description : Option String
deriving DecidableEq

/-- One value of the DEVICES dict built by build_devices_dict. -/
structure Device where
  name : String
  idx : ℕ
  type : String
  is_scene : Bool
  description : Option String
deriving DecidableEq

/-- The devices loop of build_devices_dict, lines 61-68: each entry gets
key str(light_id), type defaulting to "switch", and the counter advances
by one per entry. -/
def add_devices (light_id : ℕ) : List DeviceEntry → List (String × Device)
  | [] => []
  | d :: ds =>
    (toString light_id, ⟨d.name, d.idx, d.type.getD "switch", false, none⟩) ::
      add_devices (light_id + 1) ds

/-- The scenes loop of build_devices_dict, lines 71-79: scenes continue
the same counter, with type "scene", is_scene true, and description
defaulted to the empty string. -/
def add_scenes (light_id : ℕ) : List SceneEntry → List (String × Device)
  | [] => []
  | s :: ss =>
    (toString light_id, ⟨s.name, s.idx, "scene", true, some (s.description.getD "")⟩) ::
      add_scenes (light_id + 1) ss

/-- build_devices_dict, lines 55-81: devices first, then scenes, ids
drawn from one running counter starting at 1.  The insertion-ordered
Python dict is modelled as an association list. -/
def build_devices_dict (devs : List DeviceEntry) (scenes : List SceneEntry) :
    List (String × Device) :=
  add_devices 1 devs ++ add_scenes (1 + devs.length) scenes

/-! ### Light control (HueAPIHandler._control_light) -/

/-- The JSON body of a PUT .../state request after parsing: the optional
fields _control_light reads. -/
structure PutBody where
  «on» : Option Bool
  hue : Option ℕ
  sat : Option ℕ
  bri : Option ℕ
  ct : Option ℕ
deriving DecidableEq

/-- The state field a success entry names. -/
inductive FieldName
  | «on» | hue | sat | bri | ct
deriving DecidableEq

/-- A JSON value echoed in a success entry. -/
inductive HueValue
  | vb (x : Bool)
  | vn (x : ℕ)
deriving DecidableEq

/-- One element of the JSON array _control_light returns: a success
entry for /lights/<id>/state/<field> echoing the requested value, or the
not-found error object. -/
inductive ResultEntry
  | success (light_id : String) (field : FieldName) (v : HueValue)
  | error (description : String)
deriving DecidableEq

/-- The outbound DomoticzController calls _control_light can make, with
the arguments passed at each call site. -/
inductive HubCall
  | switch_light (idx : ℕ) (command : Bool)
  | switch_scene (idx : ℕ) (command : Bool)
  | set_rgb_color (idx : ℕ) (hue saturation brightness : Option ℕ)
  | set_white_color (idx : ℕ) (color_temp : ℕ) (brightness : Option ℕ)
  | set_brightness (idx : ℕ) (brightness : ℕ)
  | set_dimmer (idx : ℕ) (level : ℕ)
deriving DecidableEq

/-- From _control_light, lines 530-591: the JSON result array and the
hub calls made, both in program order.  The on/off rule runs first; the
colour / brightness rules form one if / elif chain. -/
def control_light (devices : List (String × Device)) (light_id : String)
    (data : PutBody) : List ResultEntry × List HubCall :=
  match devices.lookup light_id with
  | none => ([.error "Light not found"], [])
  | some device =>
    let idx := device.idx
    let device_type := device.type
    let is_scene := device.is_scene
    let on_part : List ResultEntry × List HubCall :=
      match data.«on» with
      | some command =>
        ([.success light_id .«on» (.vb command)],
         [if is_scene then .switch_scene idx command else .switch_light idx command])
      | none => ([], [])
    let branch_part : List ResultEntry × List HubCall :=
      if device_type = "rgb" ∧ is_scene = false then
        match data.ct with
        | some ct =>
          (.success light_id .ct (.vn ct) ::
             (match data.bri with
              | some b => [ResultEntry.success light_id .bri (.vn b)]
              | none => []),
           [.set_white_color idx ct data.bri])
        | none =>
          if data.hue.isSome ∨ data.sat.isSome then
            ((match data.hue with
              | some h => [ResultEntry.success light_id .hue (.vn h)]
              | none => []) ++
             (match data.sat with
              | some s => [ResultEntry.success light_id .sat (.vn s)]
              | none => []) ++
             (match data.bri with
              | some b => [ResultEntry.success light_id .bri (.vn b)]
              | none => []),
             [.set_rgb_color idx data.hue data.sat data.bri])
          else
            match data.bri with
            | some b => ([.success light_id .bri (.vn b)], [.set_brightness idx b])
            | none => ([], [])
      else if device_type = "dimmer" ∧ data.bri.isSome ∧ is_scene = false then
        match data.bri with
        | some b =>
          ([.success light_id .bri (.vn b)], [.set_dimmer idx (control_dimmer_level b)])
        | none => ([], [])
      else if (device_type = "switch" ∨ device_type = "scene") ∧ data.bri.isSome then
        match data.bri with
        | some b => ([.success light_id .bri (.vn b)], [])
        | none => ([], [])
      else ([], [])
    (on_part.1 ++ branch_part.1, on_part.2 ++ branch_part.2)

/-- The colour / brightness command families dispatched by rules 2-4. -/
def is_rule234_call : HubCall → Bool
  | .set_rgb_color _ _ _ _ => true
  | .set_white_color _ _ _ => true
  | .set_brightness _ _ => true
  | .set_dimmer _ _ => true
  | _ => false

/-- The on / off command family dispatched by rule 1. -/
def is_power_call : HubCall → Bool
  | .switch_light _ _ => true
  | .switch_scene _ _ => true
  | _ => false

/-! ### Discovery (SSDPResponder) -/

/-- Python needle in hay on character lists: needle is a prefix here or
occurs further right. -/
def starts_with_tok : List Char → List Char → Bool
  | [], _ => true
  | _ :: _, [] => false
  | c :: cs, d :: ds => c == d && starts_with_tok cs ds

/-- Python substring membership, needle in hay. -/
def has_tok (needle : List Char) : List Char → Bool
  | [] => needle.isEmpty
  | d :: ds => starts_with_tok needle (d :: ds) || has_tok needle ds

/-- The match condition of SSDPResponder._listen, line 634:
"M-SEARCH" in message and ("ssdp:all" in message or "device:basic" in
message.lower() or "upnp:rootdevice" in message).  Only the
device:basic token is checked against the lowered message. -/
def ssdp_match (message : List Char) : Bool :=
  has_tok "M-SEARCH".toList message &&
    (has_tok "ssdp:all".toList message ||
     has_tok "device:basic".toList (message.map Char.toLower) ||
     has_tok "upnp:rootdevice".toList message)

/-- The fields _send_response interpolates into the unicast reply. -/
structure SSDPResponse where
  bridge_ip : String
  http_port : ℕ
  bridge_id : String
  bridge_uuid : String
deriving DecidableEq

/-- One iteration of the _listen loop on a received datagram, lines
629-641: at most one unicast reply, sent exactly when ssdp_match holds. -/
def ssdp_step (bridge_ip : String) (http_port : ℕ) (bridge_id bridge_uuid : String)
    (message : List Char) : Option SSDPResponse :=
  if ssdp_match message then some ⟨bridge_ip, http_port, bridge_id, bridge_uuid⟩
  else none

/-- Follows the claim's words, not the code: any of the three search
tokens, each matched case-insensitively, with no further requirement. -/
def claimed_discovery_condition (message : List Char) : Bool :=
  let lowered := message.map Char.toLower
  has_tok "ssdp:all".toList lowered ||
    has_tok "device:basic".toList lowered ||
    has_tok "upnp:rootdevice".toList lowered


/-! ## Theorems -/

/-- C1, counterexample.  The conversions claimed to be round(bri*100/254)
and round(pct*254/100) actually truncate: at bri = 129 the code's
Hue-to-percent conversion gives 50 while the claimed rounding gives 51,
and at pct = 25 the code's percent-to-Hue conversion gives 63 while the
claimed rounding gives 64. -/
theorem c1_counterexample :
    set_brightness_level 129 = 50 ∧ spec_round_half_even (129 * 100) 254 = 51 ∧
    get_device_status_bri 25 = 63 ∧ spec_round_half_even (25 * 254) 100 = 64 := by
  decide

/-- C1, amended: on every brightness handoff the Hue-to-percent
conversion returns the floor (Python int() truncation) of bri*100/254 —
at both its sites, set_brightness and the dimmer branch of
_control_light — and the percent-to-Hue conversion of
get_device_status returns the floor of pct*254/100. -/
theorem c1_truncating_conversions :
    (∀ bri : ℕ, set_brightness_level bri = ⌊((bri : ℚ) * 100) / 254⌋₊ ∧
      control_dimmer_level bri = ⌊((bri : ℚ) * 100) / 254⌋₊) ∧
    (∀ pct : ℕ, get_device_status_bri pct = ⌊((pct : ℚ) * 254) / 100⌋₊) := by
  refine ⟨fun bri => ?_, fun pct => ?_⟩
  · constructor <;>
    · rw [show ((bri : ℚ) * 100) / 254 = ((bri * 100 : ℕ) : ℚ) / ((254 : ℕ) : ℚ) by
        push_cast; ring, Nat.floor_div_eq_div]
      rfl
  · rw [show ((pct : ℚ) * 254) / 100 = ((pct * 254 : ℕ) : ℚ) / ((100 : ℕ) : ℚ) by
      push_cast; ring, Nat.floor_div_eq_div]
    rfl

/-- C5: the Hue-to-percent / percent-to-Hue round trip
htP(ptH(htP b)) stays within 1 of htP b for every b in 0..254, with the
truncating conversions the code applies on brightness handoffs. -/
theorem c5_roundtrip (b : ℕ) (h : b ≤ 254) :
    set_brightness_level b -
        set_brightness_level (get_device_status_bri (set_brightness_level b)) ≤ 1 ∧
      set_brightness_level (get_device_status_bri (set_brightness_level b)) -
        set_brightness_level b ≤ 1 := by
  revert h
  revert b
  decide

/-- C5, witness at b = 200. -/
theorem c5_roundtrip_witness :
    200 ≤ 254 ∧
      (set_brightness_level 200 -
          set_brightness_level (get_device_status_bri (set_brightness_level 200)) ≤ 1 ∧
        set_brightness_level (get_device_status_bri (set_brightness_level 200)) -
          set_brightness_level 200 ≤ 1) :=
  ⟨by decide, c5_roundtrip 200 (by decide)⟩

/-- C4: a PUT state request for a light id absent from the registry
returns exactly one error entry describing the light as not found and
makes no hub call. -/
theorem c4_unknown_light (devices : List (String × Device)) (light_id : String)
    (data : PutBody) (h : devices.lookup light_id = none) :
    control_light devices light_id data =
      ([ResultEntry.error "Light not found"], []) := by
  unfold control_light
  rw [h]

/-- C4, witness on the empty registry. -/
theorem c4_unknown_light_witness :
    ([] : List (String × Device)).lookup "1" = none ∧
      control_light [] "1" ⟨some true, none, none, some 150, none⟩ =
        ([ResultEntry.error "Light not found"], []) :=
  ⟨rfl, c4_unknown_light [] "1" ⟨some true, none, none, some 150, none⟩ rfl⟩

/-- C10: set_white_color called with an explicit Hue brightness of 0
sends a brightness level of 100 percent, identically to an absent
brightness — the supplied zero is never forwarded. -/
theorem c10_zero_brightness :
    (∀ (idx : ℕ) (ct : ℤ), (set_white_color_cmd idx ct (some 0)).brightness = 100) ∧
    (∀ (idx : ℕ) (ct : ℤ),
      set_white_color_cmd idx ct (some 0) = set_white_color_cmd idx ct none) :=
  ⟨fun _ _ => rfl, fun _ _ => rfl⟩

/-- C8, counterexample.  A non-success HTTP status is not treated as a
failure: get_device_status never inspects the status code, so a 500
response whose JSON body reports a device On at level 50 yields an
on-status with brightness 127, not the all-off default. -/
theorem c8_counterexample :
    get_device_status 7 false
        (HubResult.resp 500 (some ⟨some [⟨none, some "On", some 50, none⟩]⟩)) =
      ⟨true, 127, 0, 0⟩ ∧
    (⟨true, 127, 0, 0⟩ : Status) ≠ default_status := by
  decide

/-- C8, amended: when the hub status query raises in transport or cannot
parse the response body, get_device_status returns the all-off default
status and, being total over those outcomes, never raises past the
adapter layer; the HTTP status code itself is not inspected. -/
theorem c8_failure_default (idx : ℕ) (is_scene : Bool) (r : HubResult)
    (h : r = HubResult.exn ∨ ∃ code, r = HubResult.resp code none) :
    get_device_status idx is_scene r = default_status := by
  rcases h with rfl | ⟨code, rfl⟩ <;> rfl

/-- C8, witness on a raised transport error. -/
theorem c8_failure_default_witness :
    get_device_status 9 true HubResult.exn = default_status :=
  c8_failure_default 9 true HubResult.exn (Or.inl rfl)


theorem set_white_color_mix_of_le {ct : ℤ} (h : ct ≤ 153) :
    set_white_color_mix ct = (255, 0) := by
  have hq : ((ct : ℚ) - 153) / (500 - 153) ≤ 0 := by
    rw [div_nonpos_iff]
    right
    constructor
    · have : (ct : ℚ) ≤ 153 := by exact_mod_cast h
      linarith
    · norm_num
  have hmin : min 1 (((ct : ℚ) - 153) / (500 - 153)) =
      ((ct : ℚ) - 153) / (500 - 153) :=
    min_eq_right (hq.trans (by norm_num))
  have hmax : max 0 (min 1 (((ct : ℚ) - 153) / (500 - 153))) = 0 := by
    rw [hmin]
    exact max_eq_left hq
  simp only [set_white_color_mix, hmax]
  norm_num

theorem set_white_color_mix_of_ge {ct : ℤ} (h : 500 ≤ ct) :
    set_white_color_mix ct = (0, 255) := by
  have hq : (1 : ℚ) ≤ ((ct : ℚ) - 153) / (500 - 153) := by
    rw [one_le_div (by norm_num : (0 : ℚ) < 500 - 153)]
    have : (500 : ℚ) ≤ (ct : ℚ) := by exact_mod_cast h
    linarith
  have hmin : min 1 (((ct : ℚ) - 153) / (500 - 153)) = 1 := min_eq_left hq
  have hmax : max 0 (min 1 (((ct : ℚ) - 153) / (500 - 153))) = 1 := by
    rw [hmin]
    exact max_eq_right (by norm_num)
  simp only [set_white_color_mix, hmax]
  norm_num

/-- C6: the mired-to-white-mix conversion used by set_white_color maps
153 to exactly (cool 255, warm 0) and 500 to exactly (cool 0, warm 255),
and any input is clamped into [153, 500] before the interpolation, so
every out-of-range mired behaves as its nearest bound. -/
theorem c6_white_mix :
    set_white_color_mix 153 = (255, 0) ∧ set_white_color_mix 500 = (0, 255) ∧
    ∀ ct : ℤ, set_white_color_mix ct = set_white_color_mix (max 153 (min 500 ct)) := by
  refine ⟨set_white_color_mix_of_le le_rfl, set_white_color_mix_of_ge le_rfl, fun ct => ?_⟩
  rcases le_total ct 153 with h1 | h1
  · rw [set_white_color_mix_of_le h1, min_eq_right (h1.trans (by norm_num)),
      max_eq_left h1, set_white_color_mix_of_le le_rfl]
  · rcases le_total ct 500 with h2 | h2
    · rw [min_eq_right h2, max_eq_right h1]
    · rw [set_white_color_mix_of_ge h2, min_eq_left h2,
        max_eq_right (by norm_num : (153 : ℤ) ≤ 500),
        set_white_color_mix_of_ge le_rfl]

theorem add_devices_keys (n : ℕ) (ds : List DeviceEntry) :
    (add_devices n ds).map Prod.fst = (List.range' n ds.length).map toString := by
  induction ds generalizing n with
  | nil => rfl
  | cons d ds ih => simp [add_devices, List.range'_succ, ih]

theorem add_scenes_keys (n : ℕ) (ss : List SceneEntry) :
    (add_scenes n ss).map Prod.fst = (List.range' n ss.length).map toString := by
  induction ss generalizing n with
  | nil => rfl
  | cons s ss ih => simp [add_scenes, List.range'_succ, ih]

theorem add_devices_scene_flags (n : ℕ) (ds : List DeviceEntry) :
    (add_devices n ds).map (fun p => p.2.is_scene) = List.replicate ds.length false := by
  induction ds generalizing n with
  | nil => rfl
  | cons d ds ih => simp [add_devices, List.replicate_succ, ih]

theorem add_scenes_scene_flags (n : ℕ) (ss : List SceneEntry) :
    (add_scenes n ss).map (fun p => p.2.is_scene) = List.replicate ss.length true := by
  induction ss generalizing n with
  | nil => rfl
  | cons s ss ih => simp [add_scenes, List.replicate_succ, ih]

/-- C7: the registry build assigns light ids "1", "2", ... sequentially
in input order — devices first, then scenes, the numbering continuing
across both — and 2 device entries plus 1 scene entry yield ids "1", "2"
for the devices and "3" for the scene. -/
theorem c7_registry_ids :
    (∀ (devs : List DeviceEntry) (scenes : List SceneEntry),
      (build_devices_dict devs scenes).map Prod.fst =
        (List.range' 1 (devs.length + scenes.length)).map toString) ∧
    (∀ (devs : List DeviceEntry) (scenes : List SceneEntry),
      (build_devices_dict devs scenes).map (fun p => p.2.is_scene) =
        List.replicate devs.length false ++ List.replicate scenes.length true) ∧
    (build_devices_dict
        [⟨"Living Room Light", 10, some "rgb"⟩, ⟨"Bedroom Light", 11, none⟩]
        [⟨"Party Mode", 1, none⟩] =
      [("1", ⟨"Living Room Light", 10, "rgb", false, none⟩),
       ("2", ⟨"Bedroom Light", 11, "switch", false, none⟩),
       ("3", ⟨"Party Mode", 1, "scene", true, some ""⟩)]) := by
  refine ⟨fun devs scenes => ?_, fun devs scenes => ?_, by decide⟩
  · have happ := List.range'_append 1 devs.length scenes.length 1
    simp only [one_mul] at happ
    rw [build_devices_dict, List.map_append, add_devices_keys, add_scenes_keys,
      ← List.map_append, Nat.add_comm devs.length scenes.length, ← happ]
  · rw [build_devices_dict, List.map_append, add_devices_scene_flags,
      add_scenes_scene_flags]


theorem starts_with_tok_iff (needle : List Char) :
    ∀ hay : List Char, starts_with_tok needle hay = true ↔ ∃ t, hay = needle ++ t := by
  induction needle with
  | nil => intro hay; simp [starts_with_tok]
  | cons c cs ih =>
    intro hay
    cases hay with
    | nil => simp [starts_with_tok]
    | cons d ds =>
      simp only [starts_with_tok, Bool.and_eq_true, beq_iff_eq, ih, List.cons_append,
        List.cons.injEq]
      constructor
      · rintro ⟨rfl, t, rfl⟩
        exact ⟨t, rfl, rfl⟩
      · rintro ⟨t, rfl, rfl⟩
        exact ⟨rfl, t, rfl⟩

theorem has_tok_iff (needle : List Char) :
    ∀ hay : List Char, has_tok needle hay = true ↔ ∃ p t, hay = p ++ needle ++ t := by
  intro hay
  induction hay with
  | nil =>
    simp only [has_tok, List.isEmpty_iff]
    constructor
    · rintro rfl
      exact ⟨[], [], rfl⟩
    · rintro ⟨p, t, h⟩
      rcases List.append_eq_nil.mp (List.append_eq_nil.mp h.symm).1 with ⟨-, h2⟩
      exact h2
  | cons d ds ih =>
    simp only [has_tok, Bool.or_eq_true, starts_with_tok_iff, ih]
    constructor
    · rintro (⟨t, h⟩ | ⟨p, t, h⟩)
      · exact ⟨[], t, by simpa using h⟩
      · exact ⟨d :: p, t, by simp [h]⟩
    · rintro ⟨p, t, h⟩
      cases p with
      | nil =>
        exact Or.inl ⟨t, by simpa using h⟩
      | cons x xs =>
        rcases (List.cons.injEq ..).mp (by simpa using h) with ⟨-, h2⟩
        exact Or.inr ⟨xs, t, by simp [h2]⟩

/-- C2, counterexample.  The datagram "ssdp:all" contains the search-all
token (so the claim's condition holds), yet the responder sends no reply
because the code additionally requires the literal "M-SEARCH". -/
theorem c2_counterexample :
    claimed_discovery_condition ("ssdp:all".toList) = true ∧
      ssdp_step "192.168.1.2" 80 "bridge" "uuid" ("ssdp:all".toList) = none := by
  decide

/-- C2, amended: for every received datagram the responder sends exactly
one unicast reply if and only if the message contains the literal
"M-SEARCH" and, in addition, the search-all token "ssdp:all"
(case-sensitively), the basic-device token "device:basic" (matched
case-insensitively, against the lowered message), or the root-device
token "upnp:rootdevice" (case-sensitively); any other datagram produces
no reply. -/
theorem c2_reply_iff (bridge_ip : String) (http_port : ℕ)
    (bridge_id bridge_uuid : String) (message : List Char) :
    (ssdp_step bridge_ip http_port bridge_id bridge_uuid message).isSome = true ↔
      ((∃ p t, message = p ++ "M-SEARCH".toList ++ t) ∧
        ((∃ p t, message = p ++ "ssdp:all".toList ++ t) ∨
          (∃ p t, message.map Char.toLower = p ++ "device:basic".toList ++ t) ∨
          (∃ p t, message = p ++ "upnp:rootdevice".toList ++ t))) := by
  have hstep : (ssdp_step bridge_ip http_port bridge_id bridge_uuid message).isSome =
      ssdp_match message := by
    unfold ssdp_step
    split <;> simp_all
  rw [hstep]
  unfold ssdp_match
  simp only [Bool.and_eq_true, Bool.or_eq_true, has_tok_iff]
  rw [or_assoc]


theorem control_light_rule234_le_one (devices : List (String × Device))
    (light_id : String) (data : PutBody) :
    ((control_light devices light_id data).2.countP is_rule234_call) ≤ 1 := by
  unfold control_light
  cases devices.lookup light_id with
  | none => simp
  | some device =>
    obtain ⟨o, hu, sa, br, c⟩ := data
    cases o <;> cases hu <;> cases sa <;> cases br <;> cases c <;>
      simp only [List.countP_append, List.countP_cons, List.countP_nil,
        is_rule234_call] <;>
      split_ifs <;>
      simp_all [is_rule234_call]

/-- C3: for a registered rgb, non-scene light, a PUT body carrying on,
hue, sat and bri yields exactly the four success entries (on, hue, sat,
bri) and exactly one power command plus one colour command to the hub;
and in general at most one of the colour / brightness dispatch rules 2-4
fires per PUT request. -/
theorem c3_rgb_put_dispatch (devices : List (String × Device)) (light_id : String)
    (d : Device) (hfind : devices.lookup light_id = some d)
    (htype : d.type = "rgb") (hscene : d.is_scene = false)
    (von : Bool) (h s b : ℕ) :
    control_light devices light_id ⟨some von, some h, some s, some b, none⟩ =
      ([ResultEntry.success light_id .«on» (.vb von),
        ResultEntry.success light_id .hue (.vn h),
        ResultEntry.success light_id .sat (.vn s),
        ResultEntry.success light_id .bri (.vn b)],
       [HubCall.switch_light d.idx von,
        HubCall.set_rgb_color d.idx (some h) (some s) (some b)]) ∧
    ∀ (devs : List (String × Device)) (lid : String) (body : PutBody),
      ((control_light devs lid body).2.countP is_rule234_call) ≤ 1 := by
  refine ⟨?_, fun devs lid body => control_light_rule234_le_one devs lid body⟩
  unfold control_light
  rw [hfind]
  simp [htype, hscene]

/-- C3, witness on a one-light registry. -/
theorem c3_rgb_put_dispatch_witness :
    control_light [("1", ⟨"Living Room Light", 10, "rgb", false, none⟩)] "1"
        ⟨some true, some 10000, some 200, some 150, none⟩ =
      ([ResultEntry.success "1" .«on» (.vb true),
        ResultEntry.success "1" .hue (.vn 10000),
        ResultEntry.success "1" .sat (.vn 200),
        ResultEntry.success "1" .bri (.vn 150)],
       [HubCall.switch_light 10 true,
        HubCall.set_rgb_color 10 (some 10000) (some 200) (some 150)]) :=
  (c3_rgb_put_dispatch [("1", ⟨"Living Room Light", 10, "rgb", false, none⟩)] "1"
    ⟨"Living Room Light", 10, "rgb", false, none⟩ rfl rfl rfl true 10000 200 150).1

/-- C9: for a registered light of type switch or scene whose PUT body
contains bri, the response contains a success entry echoing bri and the
hub receives no colour / brightness call — only rule 1 power calls can
occur. -/
theorem c9_switch_scene_bri_ack (devices : List (String × Device))
    (light_id : String) (d : Device) (data : PutBody) (b : ℕ)
    (hfind : devices.lookup light_id = some d)
    (htype : d.type = "switch" ∨ d.type = "scene")
    (hbri : data.bri = some b) :
    (ResultEntry.success light_id .bri (.vn b)) ∈ (control_light devices light_id data).1 ∧
    ∀ call ∈ (control_light devices light_id data).2, is_power_call call = true := by
  obtain ⟨o, hu, sa, br, c⟩ := data
  cases hbri
  unfold control_light
  rw [hfind]
  rcases htype with ht | ht <;> cases o <;> rcases hcs : d.is_scene <;>
    simp [ht, hcs, is_power_call]

/-- C9, witness on a one-switch registry. -/
theorem c9_switch_scene_bri_ack_witness :
    (ResultEntry.success "1" .bri (.vn 150)) ∈
        (control_light [("1", ⟨"Coffee Machine", 4, "switch", false, none⟩)] "1"
          ⟨some true, none, none, some 150, none⟩).1 ∧
      ∀ call ∈ (control_light [("1", ⟨"Coffee Machine", 4, "switch", false, none⟩)] "1"
          ⟨some true, none, none, some 150, none⟩).2, is_power_call call = true :=
  c9_switch_scene_bri_ack [("1", ⟨"Coffee Machine", 4, "switch", false, none⟩)] "1"
    ⟨"Coffee Machine", 4, "switch", false, none⟩
    ⟨some true, none, none, some 150, none⟩ 150 rfl (Or.inl rfl) rfl

end DomoticzHue
